import Mathlib

/-!
# BioDrive+ Wearable Integration & Synchronization Subsystem — verification

A shallow embedding of the wearable-integration subsystem of the BioDrive+
server (`server/routes.ts`, `server/storage.ts`, `server/whoopStrategy.ts`),
together with theorems settling the specification's claims about it.

Conventions of the embedding:
* timestamps (`Date.now()`, `new Date()`) are integers (milliseconds since the
  epoch), threaded explicitly as a `now` argument;
* each `Math.random()` call is an explicit rational input `r` with
  `0 ≤ r < 1`;
* the storage collaborator (a SQL table of credentials and one of biometric
  records, `storage.ts` `DatabaseStorage`) is a `Store` value: a list of rows
  per table, inserts append, updates map over matching rows, deletes filter;
* external HTTP calls (token refresh, metrics fetch) are resolved by an
  explicit environment (`SyncEnv`) describing the provider's response;
* JavaScript `x || null` on an optional numeric/string field is `orNullInt` /
  `orNullStr` (it maps `0`, `""` and `undefined`/`null` all to `null`).
-/

set_option maxRecDepth 16000

namespace BioDrive

/-- A row of the `wearable_tokens` table (one Credential per user × provider):
`userId`, `provider`, `accessToken`, `refreshToken` (nullable),
`externalUserId` (nullable), `expiresAt` (nullable, ms epoch), `updatedAt`. -/
structure WearableToken where
  userId : Int
  provider : String
  accessToken : String
  refreshToken : Option String
  externalUserId : Option String
  expiresAt : Option Int
  updatedAt : Int
deriving DecidableEq, Repr

/-- A row of the `wearable_data` table (canonical biometric record).
`strainLevel` is stored as decimal text (the schema's decimal column). -/
structure WearableDataRec where
  userId : Int
  deviceType : String
  sleepScore : Option Int
  sleepDuration : Option String
  strainLevel : Option String
  hrv : Option Int
  heartRate : Option Int
  recordedAt : Int
deriving DecidableEq, Repr

/-- The storage collaborator's persistent state: the two tables the
subsystem touches. -/
structure Store where
  tokens : List WearableToken
  records : List WearableDataRec
deriving DecidableEq, Repr

/-- `DatabaseStorage.getWearableToken` (storage.ts:339): select the row with
matching `userId` and `provider` (first match). -/
def getWearableToken (st : Store) (u : Int) (p : String) : Option WearableToken :=
  st.tokens.find? (fun t => decide (t.userId = u ∧ t.provider = p))

/-- `DatabaseStorage.createWearableToken` (storage.ts:347): insert the row. -/
def createWearableToken (st : Store) (t : WearableToken) : Store :=
  { st with tokens := st.tokens ++ [t] }

/-- `DatabaseStorage.updateWearableToken` (storage.ts:355): set the given
fields (`f`) plus `updatedAt := now` on every row matching
`userId`/`provider`. -/
def updateWearableToken (st : Store) (u : Int) (p : String)
    (f : WearableToken → WearableToken) (now : Int) : Store :=
  { st with
    tokens := st.tokens.map (fun t =>
      if t.userId = u ∧ t.provider = p then { f t with updatedAt := now } else t) }

/-- `DatabaseStorage.deleteWearableToken` (storage.ts:364): delete every row
matching `userId`/`provider`; no error when none matches. -/
def deleteWearableToken (st : Store) (u : Int) (p : String) : Store :=
  { st with tokens := st.tokens.filter (fun t => !decide (t.userId = u ∧ t.provider = p)) }

/-- `DatabaseStorage.createWearableData` (storage.ts:282): insert the record
verbatim. -/
def dbCreateWearableData (st : Store) (d : WearableDataRec) : Store :=
  { st with records := st.records ++ [d] }

/-- JavaScript `x || null` for an optional integer field: `null`/`undefined`
and `0` (falsy) become `null`, any other value is kept. -/
def orNullInt (o : Option Int) : Option Int :=
  match o with
  | some v => if v = 0 then none else some v
  | none => none

/-- JavaScript `x || null` for an optional string field: `null`/`undefined`
and `""` (falsy) become `null`, any other value is kept. -/
def orNullStr (o : Option String) : Option String :=
  match o with
  | some s => if s = "" then none else some s
  | none => none

/-- `MemStorage.createWearableData` (storage.ts:135): every optional field is
defaulted with `|| null`, `recordedAt` is server-assigned. Returns the
updated store and the stored record. -/
def memCreateWearableData (st : Store) (d : WearableDataRec) (now : Int) :
    Store × WearableDataRec :=
  let stored : WearableDataRec :=
    { userId := d.userId
      deviceType := d.deviceType
      sleepScore := orNullInt d.sleepScore
      sleepDuration := orNullStr d.sleepDuration
      strainLevel := orNullStr d.strainLevel
      hrv := orNullInt d.hrv
      heartRate := orNullInt d.heartRate
      recordedAt := now }
  ({ st with records := st.records ++ [stored] }, stored)

/-! ## Simulated-data generation

`routes.ts` draws each simulated field with `Math.random()`; a `Rand5`
bundles the six draws of one simulated record, each a rational in `[0,1)`. -/

/-- The six `Math.random()` draws of one simulated record. -/
structure Rand5 where
  rScore : ℚ
  rHour : ℚ
  rMin : ℚ
  rStrain : ℚ
  rHrv : ℚ
  rHeart : ℚ
deriving DecidableEq, Repr

/-- Each draw lies in `[0,1)`, as `Math.random()` guarantees. -/
def Rand5.Valid (r : Rand5) : Prop :=
  (0 ≤ r.rScore ∧ r.rScore < 1) ∧ (0 ≤ r.rHour ∧ r.rHour < 1) ∧
  (0 ≤ r.rMin ∧ r.rMin < 1) ∧ (0 ≤ r.rStrain ∧ r.rStrain < 1) ∧
  (0 ≤ r.rHrv ∧ r.rHrv < 1) ∧ (0 ≤ r.rHeart ∧ r.rHeart < 1)

/-- Decimal string with exactly one digit after the point, of `n` tenths
(`tenthsString 199 = "19.9"`). -/
def tenthsString (n : ℕ) : String :=
  toString (n / 10) ++ "." ++ toString (n % 10)

/-- JavaScript `Number.prototype.toFixed(1)` for a nonnegative value: round
to the nearest tenth (half away from zero) and print with one decimal. -/
def jsToFixed1 (q : ℚ) : String :=
  tenthsString (Rat.floor (q * 10 + 1/2)).toNat

/-- The demo WHOOP record of routes.ts:596-604 (sync fallback; the same field
expressions appear at routes.ts:261-269, the demo WHOOP auth initial data):
`sleepScore: Math.floor(Math.random()*40)+60`,
`sleepDuration: ${Math.floor(Math.random()*2)+7}h ${Math.floor(Math.random()*60)}m`,
`strainLevel: (Math.random()*15+5).toFixed(1)`,
`hrv: Math.floor(Math.random()*50)+25`, `heartRate: Math.floor(Math.random()*40)+60`. -/
def demoWhoopInsert (u : Int) (r : Rand5) (now : Int) : WearableDataRec :=
  { userId := u
    deviceType := "whoop"
    sleepScore := some (Rat.floor (r.rScore * 40) + 60)
    sleepDuration := some (toString (Rat.floor (r.rHour * 2) + 7) ++ "h " ++
      toString (Rat.floor (r.rMin * 60)) ++ "m")
    strainLevel := some (jsToFixed1 (r.rStrain * 15 + 5))
    hrv := some (Rat.floor (r.rHrv * 50) + 25)
    heartRate := some (Rat.floor (r.rHeart * 40) + 60)
    recordedAt := now }

/-- The mock Apple Health record of routes.ts:385-393 (mock auth initial
data): identical field expressions to the WHOOP demo record — strain is
`(Math.random()*15+5).toFixed(1)` — but `deviceType: 'apple_watch'`. -/
def appleAuthInsert (u : Int) (r : Rand5) (now : Int) : WearableDataRec :=
  { userId := u
    deviceType := "apple_watch"
    sleepScore := some (Rat.floor (r.rScore * 40) + 60)
    sleepDuration := some (toString (Rat.floor (r.rHour * 2) + 7) ++ "h " ++
      toString (Rat.floor (r.rMin * 60)) ++ "m")
    strainLevel := some (jsToFixed1 (r.rStrain * 15 + 5))
    hrv := some (Rat.floor (r.rHrv * 50) + 25)
    heartRate := some (Rat.floor (r.rHeart * 40) + 60)
    recordedAt := now }

/-- The mock Apple Health record of routes.ts:634-652 (sync path): here
`strainLevel: Math.floor(Math.random()*15)+5` is an integer, persisted via
`.toString()` (routes.ts:649), unlike every other simulated path. -/
def appleSyncInsert (u : Int) (r : Rand5) (now : Int) : WearableDataRec :=
  { userId := u
    deviceType := "apple_watch"
    sleepScore := some (Rat.floor (r.rScore * 40) + 60)
    sleepDuration := some (toString (Rat.floor (r.rHour * 2) + 7) ++ "h " ++
      toString (Rat.floor (r.rMin * 60)) ++ "m")
    strainLevel := some (toString (Rat.floor (r.rStrain * 15) + 5))
    hrv := some (Rat.floor (r.rHrv * 50) + 25)
    heartRate := some (Rat.floor (r.rHeart * 40) + 60)
    recordedAt := now }

/-! ## Provider adapter and transformer (spec-modelled)

`server/services/wearableIntegration.ts` (`WHOOPIntegration`,
`AppleHealthIntegration`, `WearableDataTransformer`) is not under `src/`;
only its callers in `routes.ts` are. The definitions below are modelled
from the spec (§4.2, §4.3). -/

/-- Modelled from the spec: the raw payload the tracker adapter's three
`fetchMetrics` calls (recovery, sleep, cycle/strain) return; per §4.3 the
transformer copies sleep score and HRV verbatim when present, takes the
most recent cycle entry for strain (`cycleStrains` lists entries most
recent first, each already as decimal text per "strain as decimal text when
persisted"), and absent fields stay absent. -/
structure WhoopRawMetrics where
  sleepScore : Option Int
  sleepDuration : Option String
  hrv : Option Int
  heartRate : Option Int
  cycleStrains : List String
deriving DecidableEq, Repr

/-- The transformer's canonical output shape (what `transformWHOOPData` /
`transformAppleHealthData` return before persistence). -/
structure TransformedData where
  deviceType : String
  sleepScore : Option Int
  sleepDuration : Option String
  strainLevel : Option String
  hrv : Option Int
  heartRate : Option Int
deriving DecidableEq, Repr

/-- Modelled from the spec: `WearableDataTransformer.transformWHOOPData`
(§4.3) — pure, total, copies numeric fields verbatim when present, uses the
most recent cycle entry only, tags `deviceType` with the tracker's tag. -/
def transformWHOOPData (raw : WhoopRawMetrics) : TransformedData :=
  { deviceType := "whoop"
    sleepScore := raw.sleepScore
    sleepDuration := raw.sleepDuration
    strainLevel := raw.cycleStrains.head?
    hrv := raw.hrv
    heartRate := raw.heartRate }

/-- Modelled from the spec: the payload of one aggregator webhook event
(§4.5); `device` is the sub-device tag (watch vs. ring) that drives
`deviceType`. -/
structure TerraPayload where
  device : Option String
  sleepScore : Option Int
  sleepDuration : Option String
  strainLevel : Option String
  hrv : Option Int
  heartRate : Option Int
deriving DecidableEq, Repr

/-- Modelled from the spec:
`WearableDataTransformer.transformAppleHealthData(sleep, daily, body)`
(§4.3) — total over its input shape, absent fields propagate as absent,
fields come verbatim from whichever category payload is present,
`deviceType` follows the reported sub-device (defaulting to the watch tag). -/
def transformAppleHealthData (sleep daily body : Option TerraPayload) :
    TransformedData :=
  let src := (sleep.orElse fun _ => daily).orElse fun _ => body
  match src with
  | none =>
    { deviceType := "apple_watch", sleepScore := none, sleepDuration := none
      strainLevel := none, hrv := none, heartRate := none }
  | some p =>
    { deviceType := p.device.getD "apple_watch"
      sleepScore := p.sleepScore
      sleepDuration := p.sleepDuration
      strainLevel := p.strainLevel
      hrv := p.hrv
      heartRate := p.heartRate }

/-! ## Sync endpoint (`POST /api/sync/:userId`, routes.ts:525-666) -/

/-- The provider's response to `WHOOPIntegration.refreshAccessToken`
(modelled from the spec §4.2: a new access/refresh token pair with a
relative expiry in seconds, or `RefreshRejected`, which the caller sees as
a thrown error). -/
inductive RefreshResult where
  | ok (accessToken refreshToken : String) (expiresIn : ℕ)
  | rejected
deriving DecidableEq, Repr

/-- The combined outcome of the three real WHOOP metrics calls
(routes.ts:564-568): either a raw payload or a failure (network error,
malformed payload, non-2xx), which the caller sees as a thrown error. -/
inductive FetchResult where
  | ok (raw : WhoopRawMetrics)
  | failed
deriving DecidableEq, Repr

/-- The environment of one sync request: the current time, the provider's
responses to the (at most one) refresh and fetch calls, and the random
draws of the two simulated-data generators. -/
structure SyncEnv where
  now : Int
  refresh : RefreshResult
  fetch : FetchResult
  whoopRand : Rand5
  appleRand : Rand5
deriving DecidableEq, Repr

/-- One element of the sync endpoint's `results` array. -/
structure Outcome where
  provider : String
  status : String
deriving DecidableEq, Repr

/-- Staleness test of routes.ts:543 (`whoopToken.expiresAt && new Date() >
whoopToken.expiresAt`): the credential is stale iff `expiresAt` is set and
strictly before now. -/
def isStale (t : WearableToken) (now : Int) : Bool :=
  match t.expiresAt with
  | some e => decide (e < now)
  | none => false

/-- The record persisted from real WHOOP data (routes.ts:576-584): each
optional transformer field is defaulted with `|| null` (strain via
`?.toString() || null`). -/
def realWhoopInsert (u : Int) (raw : WhoopRawMetrics) (now : Int) : WearableDataRec :=
  let td := transformWHOOPData raw
  { userId := u
    deviceType := td.deviceType
    sleepScore := orNullInt td.sleepScore
    sleepDuration := orNullStr td.sleepDuration
    strainLevel := orNullStr td.strainLevel
    hrv := orNullInt td.hrv
    heartRate := orNullInt td.heartRate
    recordedAt := now }

/-- routes.ts:560-622: try the real WHOOP API; on success persist the
transformed record and push a success outcome; on fetch failure fall back
to fresh demo data (the code re-checks `results.find(...)` for a prior
whoop success, which at this point holds exactly when the real fetch
succeeded), persist it, touch the token's `updatedAt`, and still push a
success outcome. -/
def whoopFetchPhase (st : Store) (u : Int) (env : SyncEnv) : Store × List Outcome :=
  match env.fetch with
  | .ok raw =>
    (dbCreateWearableData st (realWhoopInsert u raw env.now),
      [{ provider := "whoop", status := "success" }])
  | .failed =>
    let st1 := dbCreateWearableData st (demoWhoopInsert u env.whoopRand env.now)
    let st2 := updateWearableToken st1 u "whoop" (fun t => t) env.now
    (st2, [{ provider := "whoop", status := "success" }])

/-- routes.ts:539-627, the WHOOP arm of the sync endpoint: skip when no
credential; if stale, refresh first — a rejected refresh throws into the
arm's catch, which pushes an error outcome without touching storage; a
successful refresh persists the new tokens and the new expiry
`now + expires_in * 1000` before fetching. -/
def syncWhoopBlock (st : Store) (u : Int) (env : SyncEnv) : Store × List Outcome :=
  match getWearableToken st u "whoop" with
  | none => (st, [])
  | some tok =>
    if isStale tok env.now then
      match env.refresh with
      | .rejected => (st, [{ provider := "whoop", status := "error" }])
      | .ok a r ei =>
        let newExpiresAt := env.now + (ei : Int) * 1000
        let st1 := updateWearableToken st u "whoop"
          (fun t => { t with
            accessToken := a
            refreshToken := some r
            expiresAt := some newExpiresAt }) env.now
        whoopFetchPhase st1 u env
    else
      whoopFetchPhase st u env

/-- routes.ts:629-659, the Apple Health arm of the sync endpoint: guarded by
`appleToken?.externalUserId` (a truthiness test — a missing credential, a
null `externalUserId` and an empty-string `externalUserId` all skip the
arm); otherwise persist fresh mock data and push a success outcome. -/
def syncAppleBlock (st : Store) (u : Int) (env : SyncEnv) : Store × List Outcome :=
  match getWearableToken st u "apple_health" with
  | none => (st, [])
  | some tok =>
    match tok.externalUserId with
    | none => (st, [])
    | some s =>
      if s = "" then (st, [])
      else
        (dbCreateWearableData st (appleSyncInsert u env.appleRand env.now),
          [{ provider := "apple_health", status := "success" }])

/-- `POST /api/sync/:userId` (routes.ts:525-666) after the user-id
validation: run the WHOOP arm, then the Apple Health arm on the resulting
state, and return the concatenated outcome list. -/
def syncEndpoint (st : Store) (u : Int) (env : SyncEnv) : Store × List Outcome :=
  let w := syncWhoopBlock st u env
  let a := syncAppleBlock w.1 u env
  (a.1, w.2 ++ a.2)

/-! ## Webhook ingestor (`POST /api/terra/webhook`, routes.ts:458-500) -/

/-- The `user` object of a Terra webhook body; its `user_id` is the
provider-assigned external user identifier. -/
structure TerraUser where
  user_id : String
deriving DecidableEq, Repr

/-- A Terra webhook request body: `{ type, user, data }`, each possibly
missing. -/
structure TerraBody where
  type : String
  user : Option TerraUser
  data : Option TerraPayload
deriving DecidableEq, Repr

/-- routes.ts:469 passes the event's external user id string to
`getWearableToken`'s numeric `userId` parameter
(`storage.getWearableToken(user.user_id, 'apple_health')`), so the SQL
lookup compares the integer `userId` column with the external id: it can
match only when that string reads as the decimal form of an internal
user id — it never consults the `externalUserId` column. -/
def terraLookupToken (st : Store) (s : String) : Option WearableToken :=
  st.tokens.find? (fun t => decide (toString t.userId = s ∧ t.provider = "apple_health"))

/-- The record the webhook persists (routes.ts:482-490): transformer fields
defaulted with `|| null`, under the matched row's internal `userId`. -/
def terraInsert (u : Int) (td : TransformedData) (now : Int) : WearableDataRec :=
  { userId := u
    deviceType := td.deviceType
    sleepScore := orNullInt td.sleepScore
    sleepDuration := orNullStr td.sleepDuration
    strainLevel := orNullStr td.strainLevel
    hrv := orNullInt td.hrv
    heartRate := orNullInt td.heartRate
    recordedAt := now }

/-- `POST /api/terra/webhook` (routes.ts:458-500), returning the updated
store and the HTTP status: for a body/daily/sleep event, reading
`user.user_id` with `user` missing throws, and the handler's catch answers
500 (routes.ts:496-499); an unmatched lookup answers 200 with no record;
a match transforms the category's payload and persists a record; any other
event type is acknowledged with 200 untouched. -/
def terraWebhook (st : Store) (b : TerraBody) (now : Int) : Store × ℕ :=
  if b.type = "body" ∨ b.type = "daily" ∨ b.type = "sleep" then
    match b.user with
    | none => (st, 500)
    | some uu =>
      match terraLookupToken st uu.user_id with
      | none => (st, 200)
      | some tok =>
        let td := transformAppleHealthData
          (if b.type = "sleep" then b.data else none)
          (if b.type = "daily" then b.data else none)
          (if b.type = "body" then b.data else none)
        (dbCreateWearableData st (terraInsert tok.userId td now), 200)
  else (st, 200)

/-- Modelled from the spec: §4.5's resolution rule — "look up the Credential
whose `externalUserId` matches" the event's external user identifier. Kept
for comparison with `terraLookupToken`, the lookup the code performs. -/
def resolveByExternalUserId (st : Store) (s : String) : Option WearableToken :=
  st.tokens.find? (fun t => decide (t.externalUserId = some s))

/-! ## Apple Health authorization (routes.ts:356-455) and disconnect -/

/-- First-occurrence removal of the substring `"apple_"`, as JavaScript
`state.replace('apple_', '')` performs (string-pattern `replace` replaces
only the first occurrence). -/
def dropAppleTag : List Char → List Char
  | 'a' :: 'p' :: 'p' :: 'l' :: 'e' :: '_' :: rest => rest
  | c :: rest => c :: dropAppleTag rest
  | [] => []

/-- The value of the longest leading digit run, or `none` when it is empty —
the core of JavaScript `parseInt` (which reads an optional sign and then
the maximal digit prefix, `NaN` when there is none). -/
def digitPrefixVal (cs : List Char) : Option ℕ :=
  let ds := cs.takeWhile Char.isDigit
  if ds.isEmpty then none
  else some (ds.foldl (fun a c => a * 10 + (c.toNat - 48)) 0)

/-- JavaScript `parseInt` on a trimmed string. -/
def jsParseInt (s : String) : Option Int :=
  match s.toList with
  | '-' :: rest => (digitPrefixVal rest).map (fun n => -(n : Int))
  | cs => (digitPrefixVal cs).map (fun n => (n : Int))

/-- `parseInt((state as string).replace('apple_', ''))` of routes.ts:427. -/
def parseAppleState (state : String) : Option Int :=
  match dropAppleTag state.toList with
  | '-' :: rest => (digitPrefixVal rest).map (fun n => -(n : Int))
  | cs => (digitPrefixVal cs).map (fun n => (n : Int))

/-- The mock Apple Health credential `GET /api/auth/apple/mock` creates
(routes.ts:374-381): `refreshToken: null`, `expiresAt: null`, external id
`mock_apple_${userId}_${Date.now()}`. -/
def appleMockToken (u now : Int) : WearableToken :=
  { userId := u
    provider := "apple_health"
    accessToken := "mock_apple_authenticated"
    refreshToken := none
    externalUserId := some ("mock_apple_" ++ toString u ++ "_" ++ toString now)
    expiresAt := none
    updatedAt := now }

/-- `GET /api/auth/apple/mock` (routes.ts:356-417) after url parsing: for a
valid (nonzero, numeric) user id, mark the Apple Health credential
authenticated — updating it when present, else creating `appleMockToken` —
and persist an initial mock record. -/
def appleMockAuth (st : Store) (u : Int) (now : Int) (r : Rand5) : Store × ℕ :=
  if u = 0 then (st, 400)
  else
    let mockTerraUserId := "mock_apple_" ++ toString u ++ "_" ++ toString now
    let st1 :=
      match getWearableToken st u "apple_health" with
      | some _ =>
        updateWearableToken st u "apple_health"
          (fun t => { t with
            externalUserId := some mockTerraUserId
            accessToken := "mock_apple_authenticated" }) now
      | none => createWearableToken st (appleMockToken u now)
    (dbCreateWearableData st1 (appleAuthInsert u r now), 200)

/-- The body of `POST /api/auth/apple/callback`:
`{ user_id, provider, status, state }` (provider unused by the handler). -/
structure AppleCallbackBody where
  user_id : String
  status : String
  state : String
deriving DecidableEq, Repr

/-- The Apple Health credential `POST /api/auth/apple/callback` creates
(routes.ts:440-447): `refreshToken: null`, `expiresAt: null`, the body's
`user_id` stored unvalidated as `externalUserId`. -/
def appleCallbackToken (u : Int) (ext : String) (now : Int) : WearableToken :=
  { userId := u
    provider := "apple_health"
    accessToken := "terra_authenticated"
    refreshToken := none
    externalUserId := some ext
    expiresAt := none
    updatedAt := now }

/-- `POST /api/auth/apple/callback` (routes.ts:419-455): reject a non-success
status or an unparsable/zero state-derived user id with 400; otherwise
update the existing Apple Health credential's `externalUserId` and
`accessToken`, or create `appleCallbackToken`. -/
def appleCallback (st : Store) (b : AppleCallbackBody) (now : Int) : Store × ℕ :=
  if b.status ≠ "success" then (st, 400)
  else
    match parseAppleState b.state with
    | none => (st, 400)
    | some u =>
      if u = 0 then (st, 400)
      else
        let st1 :=
          match getWearableToken st u "apple_health" with
          | some _ =>
            updateWearableToken st u "apple_health"
              (fun t => { t with
                externalUserId := some b.user_id
                accessToken := "terra_authenticated" }) now
          | none => createWearableToken st (appleCallbackToken u b.user_id now)
        (st1, 200)

/-- `DELETE /api/auth/:provider/:userId` (routes.ts:503-522): a zero (or
unparsable) user id is a 400; a provider outside
`['whoop', 'apple_health']` is a 400; otherwise delete the credential
(idempotently — the storage delete matches zero or more rows) and report
success. -/
def disconnectEndpoint (st : Store) (provider : String) (u : Int) : Store × ℕ :=
  if u = 0 then (st, 400)
  else if ¬(provider = "whoop" ∨ provider = "apple_health") then (st, 400)
  else (deleteWearableToken st u provider, 200)

/-- One provider's entry in the `GET /api/wearable-status/:userId`
response. -/
structure ProviderStatus where
  connected : Bool
  lastSync : Option Int
  needsReauth : Bool
deriving DecidableEq, Repr

/-- The `GET /api/wearable-status/:userId` response (routes.ts:681-692):
WHOOP's `needsReauth` is the staleness test; Apple Health's `needsReauth`
is the literal `false`. -/
structure WearableStatus where
  whoop : ProviderStatus
  apple_health : ProviderStatus
deriving DecidableEq, Repr

/-- `GET /api/wearable-status/:userId` (routes.ts:669-699) after user-id
validation. -/
def wearableStatusEndpoint (st : Store) (u : Int) (now : Int) : WearableStatus :=
  let wt := getWearableToken st u "whoop"
  let apl := getWearableToken st u "apple_health"
  { whoop :=
      { connected := wt.isSome
        lastSync := wt.map (·.updatedAt)
        needsReauth :=
          match wt with
          | some t => isStale t now
          | none => false }
    apple_health :=
      { connected := apl.isSome
        lastSync := apl.map (·.updatedAt)
        needsReauth := false } }

/-! ## Spec-side predicates and concrete instances -/

/-- Whether the Apple Health arm of the sync endpoint runs: a credential
exists and its `externalUserId` is truthy (routes.ts:631). -/
def appleConnected (st : Store) (u : Int) : Bool :=
  match getWearableToken st u "apple_health" with
  | none => false
  | some tok =>
    match tok.externalUserId with
    | none => false
    | some s => !(s == "")

/-- The spec's "`lo/10`–`hi/10` with one decimal" property of a stored
strain string: it is the tenths string of some `n` with `lo ≤ n ≤ hi`. -/
def OneDecimalInRange (lo hi : ℕ) (s : String) : Prop :=
  ∃ n ∈ List.range (hi + 1), lo ≤ n ∧ s = tenthsString n

/-- The §6 simulated ranges, with strain amended to the tenths 50–200 that
`(Math.random()*15+5).toFixed(1)` can actually produce (a draw in
`[19.95, 20)` rounds to `"20.0"`). -/
def InSimRanges (rec : WearableDataRec) : Prop :=
  (∃ v, rec.sleepScore = some v ∧ 60 ≤ v ∧ v ≤ 99) ∧
  (∃ h m : Int, 7 ≤ h ∧ h ≤ 8 ∧ 0 ≤ m ∧ m ≤ 59 ∧
    rec.sleepDuration = some (toString h ++ "h " ++ toString m ++ "m")) ∧
  (∃ n : ℕ, 50 ≤ n ∧ n ≤ 200 ∧ rec.strainLevel = some (tenthsString n)) ∧
  (∃ v, rec.hrv = some v ∧ 25 ≤ v ∧ v ≤ 74) ∧
  (∃ v, rec.heartRate = some v ∧ 60 ≤ v ∧ v ≤ 99)

/-- The ranges the Apple Health sync mock actually satisfies: as
`InSimRanges` except that strain is an integer 5–19 printed without a
decimal point. -/
def InSimRangesIntStrain (rec : WearableDataRec) : Prop :=
  (∃ v, rec.sleepScore = some v ∧ 60 ≤ v ∧ v ≤ 99) ∧
  (∃ h m : Int, 7 ≤ h ∧ h ≤ 8 ∧ 0 ≤ m ∧ m ≤ 59 ∧
    rec.sleepDuration = some (toString h ++ "h " ++ toString m ++ "m")) ∧
  (∃ k : Int, 5 ≤ k ∧ k ≤ 19 ∧ rec.strainLevel = some (toString k)) ∧
  (∃ v, rec.hrv = some v ∧ 25 ≤ v ∧ v ≤ 74) ∧
  (∃ v, rec.heartRate = some v ∧ 60 ≤ v ∧ v ≤ 99)

/-- Documented §3 per-field ranges: sleep score an integer 0–100, HRV and
heart rate positive integers (when present). -/
def InDocRanges (rec : WearableDataRec) : Prop :=
  (∀ v, rec.sleepScore = some v → 0 ≤ v ∧ v ≤ 100) ∧
  (∀ v, rec.hrv = some v → 0 < v) ∧
  (∀ v, rec.heartRate = some v → 0 < v)

instance (r : Rand5) : Decidable r.Valid := by
  unfold Rand5.Valid; infer_instance

instance (lo hi : ℕ) (s : String) : Decidable (OneDecimalInRange lo hi s) := by
  unfold OneDecimalInRange; infer_instance

/-- All-zero random draws (a valid `Math.random()` outcome vector). -/
def r0 : Rand5 := ⟨0, 0, 0, 0, 0, 0⟩

/-- A store whose only credential is an Apple Health one created through the
callback endpoint with an empty `user_id` in the body: its
`externalUserId` is stored as `""`. -/
def c1State : Store :=
  (appleCallback { tokens := [], records := [] }
    { user_id := "", status := "success", state := "apple_5" } 0).1

/-- A sync environment whose fetch fails and whose refresh is rejected. -/
def c1Env : SyncEnv :=
  { now := 0, refresh := .rejected, fetch := .failed, whoopRand := r0, appleRand := r0 }

/-- A non-expiring WHOOP credential for user 1. -/
def c2Token : WearableToken :=
  { userId := 1
    provider := "whoop"
    accessToken := "tok"
    refreshToken := some "ref"
    externalUserId := some "w1"
    expiresAt := none
    updatedAt := 0 }

/-- A store whose only credential is `c2Token`. -/
def c2State : Store := { tokens := [c2Token], records := [] }

/-- A failing-fetch environment whose strain draw `0.999` makes
`(0.999*15+5).toFixed(1) = "20.0"`. -/
def c2Env : SyncEnv :=
  { now := 0, refresh := .rejected, fetch := .failed,
    whoopRand := ⟨0, 0, 0, 999/1000, 0, 0⟩, appleRand := r0 }

/-- An Apple Health credential whose provider-assigned external id is
`"terra_abc"`, owned by internal user 1. -/
def c6Token : WearableToken :=
  { userId := 1, provider := "apple_health", accessToken := "terra_authenticated",
    refreshToken := none, externalUserId := some "terra_abc", expiresAt := none,
    updatedAt := 0 }

/-- The store holding only `c6Token`. -/
def c6State : Store := { tokens := [c6Token], records := [] }

/-- A sleep webhook event for the external user id bound to `c6Token`. -/
def c6Event : TerraBody :=
  { type := "sleep"
    user := some { user_id := "terra_abc" }
    data := some
      { device := some "apple_watch"
        sleepScore := some 88
        sleepDuration := some "7h 30m"
        strainLevel := none
        hrv := none
        heartRate := none } }

/-- A sleep-category webhook body that carries no `user` object: reading
`user.user_id` throws. -/
def c7Event : TerraBody := { type := "sleep", user := none, data := none }

/-- A raw WHOOP payload carrying an out-of-range sleep score and a negative
HRV. -/
def c8Raw : WhoopRawMetrics :=
  { sleepScore := some 150, sleepDuration := some "7h 0m", hrv := some (-5),
    heartRate := some 70, cycleStrains := ["12.3"] }

/-- A store with one non-expiring WHOOP credential for user 1. -/
def c8State : Store :=
  { tokens := [
      { userId := 1
        provider := "whoop"
        accessToken := "tok"
        refreshToken := some "ref"
        externalUserId := some "w1"
        expiresAt := none
        updatedAt := 0 }]
    records := [] }

/-- An environment whose real WHOOP fetch succeeds with `c8Raw`. -/
def c8Env : SyncEnv :=
  { now := 0, refresh := .rejected, fetch := .ok c8Raw, whoopRand := r0, appleRand := r0 }

/-- A stale WHOOP credential for user 1 (expired at time 10). -/
def c4Token : WearableToken :=
  { userId := 1
    provider := "whoop"
    accessToken := "old_access"
    refreshToken := some "old_refresh"
    externalUserId := some "whoop_ext_1"
    expiresAt := some 10
    updatedAt := 0 }

/-- A store whose only credential is the stale `c4Token`. -/
def c4State : Store := { tokens := [c4Token], records := [] }

/-- An environment at time 100 whose refresh succeeds with a 3600-second
expiry and whose fetch fails. -/
def c4Env : SyncEnv :=
  { now := 100, refresh := .ok "new_access" "new_refresh" 3600, fetch := .failed
    whoopRand := r0, appleRand := r0 }

/-- An apple_health credential for user 1 with a non-empty external id. -/
def c5AppleToken : WearableToken :=
  { userId := 1
    provider := "apple_health"
    accessToken := "mock_apple_authenticated"
    refreshToken := none
    externalUserId := some "mock_apple_1_0"
    expiresAt := none
    updatedAt := 0 }

/-- A store with the stale `c4Token` (whoop) and `c5AppleToken`
(apple_health), both for user 1. -/
def c5State : Store := { tokens := [c4Token, c5AppleToken], records := [] }

/-- An environment at time 100 whose refresh is rejected. -/
def c5Env : SyncEnv :=
  { now := 100, refresh := .rejected, fetch := .failed
    whoopRand := r0, appleRand := r0 }

/-- The empty store. -/
def emptyStore : Store := { tokens := [], records := [] }

/-- An apple callback body whose state parses to user 2. -/
def c10Body : AppleCallbackBody :=
  { user_id := "ext9", status := "success", state := "apple_2" }

/-! ## Helper lemmas -/

theorem ratFloor_eq (q : ℚ) : Rat.floor q = ⌊q⌋ := by
  rw [Rat.floor_def, Rat.floor_def']

/-- `Math.floor(r * c)` lies in `[0, z)` when `0 ≤ r < 1` and `0 < c ≤ z`. -/
theorem ratFloor_scale_bounds (r c : ℚ) (z : ℤ) (h0 : 0 ≤ r) (h1 : r < 1)
    (hc : 0 < c) (hcz : c ≤ (z : ℚ)) :
    0 ≤ Rat.floor (r * c) ∧ Rat.floor (r * c) < z := by
  rw [ratFloor_eq]
  constructor
  · exact Int.le_floor.mpr (by push_cast; exact mul_nonneg h0 hc.le)
  · exact Int.floor_lt.mpr (lt_of_lt_of_le (mul_lt_of_lt_one_left hc h1) hcz)

/-- `(r * 15 + 5).toFixed(1)` is the tenths string of some `n` with
`50 ≤ n ≤ 200` when `0 ≤ r < 1`. -/
theorem jsToFixed1_strain_bounds (r : ℚ) (h0 : 0 ≤ r) (h1 : r < 1) :
    ∃ n : ℕ, 50 ≤ n ∧ n ≤ 200 ∧ jsToFixed1 (r * 15 + 5) = tenthsString n := by
  refine ⟨(Rat.floor ((r * 15 + 5) * 10 + 1/2)).toNat, ?_, ?_, rfl⟩
  · have h : (50 : ℤ) ≤ Rat.floor ((r * 15 + 5) * 10 + 1/2) := by
      rw [ratFloor_eq]
      exact Int.le_floor.mpr (by push_cast; nlinarith)
    omega
  · have h : Rat.floor ((r * 15 + 5) * 10 + 1/2) < 201 := by
      rw [ratFloor_eq]
      exact Int.floor_lt.mpr (by push_cast; nlinarith)
    omega

theorem getWearableToken_create (st : Store) (t : WearableToken) (u : Int) (p : String) :
    getWearableToken (createWearableToken st t) u p
      = match getWearableToken st u p with
        | some tok => some tok
        | none => if t.userId = u ∧ t.provider = p then some t else none := by
  unfold getWearableToken createWearableToken
  rw [List.find?_append]
  cases st.tokens.find? (fun t => decide (t.userId = u ∧ t.provider = p)) with
  | some tok => rfl
  | none =>
    by_cases hm : t.userId = u ∧ t.provider = p <;> simp [List.find?, hm, Option.orElse]

theorem getWearableToken_create_hit (st : Store) (t : WearableToken) (u : Int) (p : String)
    (hnone : getWearableToken st u p = none) (hu : t.userId = u) (hp : t.provider = p) :
    getWearableToken (createWearableToken st t) u p = some t := by
  rw [getWearableToken_create, hnone]
  simp [hu, hp]

theorem getWearableToken_dbCreate (st : Store) (d : WearableDataRec) (u : Int) (p : String) :
    getWearableToken (dbCreateWearableData st d) u p = getWearableToken st u p := rfl

theorem tokens_dbCreate (st : Store) (d : WearableDataRec) :
    (dbCreateWearableData st d).tokens = st.tokens := rfl

theorem records_update (st : Store) (u : Int) (p : String)
    (f : WearableToken → WearableToken) (now : Int) :
    (updateWearableToken st u p f now).records = st.records := rfl

theorem getWearableToken_update_same (st : Store) (u : Int) (p : String)
    (f : WearableToken → WearableToken) (now : Int)
    (hf : ∀ t, (f t).userId = t.userId ∧ (f t).provider = t.provider) :
    getWearableToken (updateWearableToken st u p f now) u p
      = (getWearableToken st u p).map (fun t => { f t with updatedAt := now }) := by
  unfold getWearableToken updateWearableToken
  induction st.tokens with
  | nil => rfl
  | cons h tl ih =>
    by_cases hm : h.userId = u ∧ h.provider = p
    · have h1 : ({ f h with updatedAt := now } : WearableToken).userId = u := by
        simpa [(hf h).1] using hm.1
      have h2 : ({ f h with updatedAt := now } : WearableToken).provider = p := by
        simpa [(hf h).2] using hm.2
      simp [List.find?, hm, h1, h2]
    · simp only [List.map_cons, if_neg hm]
      rw [List.find?_cons_of_neg _ (by simpa using hm),
        List.find?_cons_of_neg _ (by simpa using hm)]
      exact ih

theorem getWearableToken_update_other (st : Store) (u : Int) (p : String)
    (f : WearableToken → WearableToken) (now : Int) (u2 : Int) (p2 : String)
    (hf : ∀ t, (f t).userId = t.userId ∧ (f t).provider = t.provider)
    (hne : ¬(u2 = u ∧ p2 = p)) :
    getWearableToken (updateWearableToken st u p f now) u2 p2
      = getWearableToken st u2 p2 := by
  unfold getWearableToken updateWearableToken
  induction st.tokens with
  | nil => rfl
  | cons h tl ih =>
    by_cases hm : h.userId = u ∧ h.provider = p
    · have hnot : ¬(h.userId = u2 ∧ h.provider = p2) := by
        rintro ⟨hx, hy⟩
        exact hne ⟨hx ▸ hm.1.symm ▸ rfl, hy ▸ hm.2.symm ▸ rfl⟩
      have hnot2 : ¬(({ f h with updatedAt := now } : WearableToken).userId = u2 ∧
          ({ f h with updatedAt := now } : WearableToken).provider = p2) := by
        simpa [(hf h).1, (hf h).2] using hnot
      simp only [List.map_cons, if_pos hm]
      rw [List.find?_cons_of_neg _ (by simpa using hnot2),
        List.find?_cons_of_neg _ (by simpa using hnot)]
      exact ih
    · simp only [List.map_cons, if_neg hm]
      by_cases hp : h.userId = u2 ∧ h.provider = p2
      · rw [List.find?_cons_of_pos _ (by simpa using hp),
          List.find?_cons_of_pos _ (by simpa using hp)]
      · rw [List.find?_cons_of_neg _ (by simpa using hp),
          List.find?_cons_of_neg _ (by simpa using hp)]
        exact ih

theorem syncAppleBlock_tokens (st : Store) (u : Int) (env : SyncEnv) :
    (syncAppleBlock st u env).1.tokens = st.tokens := by
  unfold syncAppleBlock
  split
  · rfl
  · split
    · rfl
    · split
      · rfl
      · rfl

theorem syncAppleBlock_outcomes (st : Store) (u : Int) (env : SyncEnv) :
    (appleConnected st u = false ∧ (syncAppleBlock st u env).2 = []) ∨
    (appleConnected st u = true ∧
      (syncAppleBlock st u env).2 = [{ provider := "apple_health", status := "success" }]) := by
  unfold syncAppleBlock
  split
  · rename_i hg
    exact Or.inl ⟨by simp [appleConnected, hg], rfl⟩
  · rename_i tok hg
    split
    · rename_i hext
      exact Or.inl ⟨by simp [appleConnected, hg, hext], rfl⟩
    · rename_i s hext
      split
      · rename_i hs
        exact Or.inl ⟨by simp [appleConnected, hg, hext, hs], rfl⟩
      · rename_i hs
        exact Or.inr ⟨by simp [appleConnected, hg, hext, hs], rfl⟩

theorem syncAppleBlock_records (st : Store) (u : Int) (env : SyncEnv) :
    (syncAppleBlock st u env).1.records = st.records ∨
    (syncAppleBlock st u env).1.records
      = st.records ++ [appleSyncInsert u env.appleRand env.now] := by
  unfold syncAppleBlock
  split
  · exact Or.inl rfl
  · split
    · exact Or.inl rfl
    · split
      · exact Or.inl rfl
      · exact Or.inr rfl

theorem syncWhoopBlock_outcomes (st : Store) (u : Int) (env : SyncEnv) :
    (getWearableToken st u "whoop" = none ∧ (syncWhoopBlock st u env).2 = []) ∨
    ((getWearableToken st u "whoop").isSome ∧
      ∃ s, (syncWhoopBlock st u env).2 = [{ provider := "whoop", status := s }]) := by
  obtain ⟨now, refresh, fetch, wr, ar⟩ := env
  unfold syncWhoopBlock whoopFetchPhase
  split
  · rename_i hg
    exact Or.inl ⟨hg, rfl⟩
  · rename_i tok hg
    refine Or.inr ⟨by rw [hg]; rfl, ?_⟩
    split
    · cases refresh with
      | rejected => exact ⟨"error", rfl⟩
      | ok a r ei => cases fetch <;> exact ⟨"success", rfl⟩
    · cases fetch <;> exact ⟨"success", rfl⟩

theorem syncWhoopBlock_apple_token (st : Store) (u : Int) (env : SyncEnv) :
    getWearableToken (syncWhoopBlock st u env).1 u "apple_health"
      = getWearableToken st u "apple_health" := by
  have hne : ¬(u = u ∧ "apple_health" = "whoop") := by simp
  obtain ⟨now, refresh, fetch, wr, ar⟩ := env
  unfold syncWhoopBlock whoopFetchPhase
  split
  · rfl
  · rename_i tok hg
    split
    · cases refresh with
      | rejected => rfl
      | ok a r ei =>
        cases fetch with
        | ok raw =>
          rw [getWearableToken_dbCreate]
          exact getWearableToken_update_other st u "whoop" _ _ u "apple_health"
            (fun t => ⟨rfl, rfl⟩) hne
        | failed =>
          rw [getWearableToken_update_other _ _ _ (fun t => t) _ _ _
              (fun t => ⟨rfl, rfl⟩) hne,
            getWearableToken_dbCreate]
          exact getWearableToken_update_other st u "whoop" _ _ u "apple_health"
            (fun t => ⟨rfl, rfl⟩) hne
    · cases fetch with
      | ok raw => rfl
      | failed =>
        rw [getWearableToken_update_other _ _ _ (fun t => t) _ _ _
            (fun t => ⟨rfl, rfl⟩) hne,
          getWearableToken_dbCreate]

theorem orNullInt_ne_zero (o : Option Int) : orNullInt o ≠ some 0 := by
  unfold orNullInt
  cases o with
  | none => simp
  | some v => by_cases hv : v = 0 <;> simp [hv]

/-- Bounds of the individual simulated-field expressions for valid draws. -/
theorem simFields_bounds (r : Rand5) (hr : r.Valid) :
    (60 ≤ Rat.floor (r.rScore * 40) + 60 ∧ Rat.floor (r.rScore * 40) + 60 ≤ 99) ∧
    (7 ≤ Rat.floor (r.rHour * 2) + 7 ∧ Rat.floor (r.rHour * 2) + 7 ≤ 8) ∧
    (0 ≤ Rat.floor (r.rMin * 60) ∧ Rat.floor (r.rMin * 60) ≤ 59) ∧
    (5 ≤ Rat.floor (r.rStrain * 15) + 5 ∧ Rat.floor (r.rStrain * 15) + 5 ≤ 19) ∧
    (25 ≤ Rat.floor (r.rHrv * 50) + 25 ∧ Rat.floor (r.rHrv * 50) + 25 ≤ 74) ∧
    (60 ≤ Rat.floor (r.rHeart * 40) + 60 ∧ Rat.floor (r.rHeart * 40) + 60 ≤ 99) := by
  obtain ⟨⟨s0, s1⟩, ⟨h0, h1⟩, ⟨m0, m1⟩, ⟨t0, t1⟩, ⟨v0, v1⟩, ⟨b0, b1⟩⟩ := hr
  have hs := ratFloor_scale_bounds r.rScore 40 40 s0 s1 (by norm_num) (by norm_num)
  have hh := ratFloor_scale_bounds r.rHour 2 2 h0 h1 (by norm_num) (by norm_num)
  have hm := ratFloor_scale_bounds r.rMin 60 60 m0 m1 (by norm_num) (by norm_num)
  have ht := ratFloor_scale_bounds r.rStrain 15 15 t0 t1 (by norm_num) (by norm_num)
  have hv := ratFloor_scale_bounds r.rHrv 50 50 v0 v1 (by norm_num) (by norm_num)
  have hb := ratFloor_scale_bounds r.rHeart 40 40 b0 b1 (by norm_num) (by norm_num)
  omega

theorem demoWhoopInsert_ranges (u : Int) (r : Rand5) (now : Int) (hr : r.Valid) :
    InSimRanges (demoWhoopInsert u r now) := by
  obtain ⟨hs, hh, hm, _, hv, hb⟩ := simFields_bounds r hr
  obtain ⟨n, hn1, hn2, hn3⟩ := jsToFixed1_strain_bounds r.rStrain hr.2.2.2.1.1 hr.2.2.2.1.2
  exact ⟨⟨_, rfl, hs.1, hs.2⟩,
    ⟨_, _, hh.1, hh.2, hm.1, hm.2, rfl⟩,
    ⟨n, hn1, hn2, by simp [demoWhoopInsert, hn3]⟩,
    ⟨_, rfl, hv.1, hv.2⟩, ⟨_, rfl, hb.1, hb.2⟩⟩

theorem appleAuthInsert_ranges (u : Int) (r : Rand5) (now : Int) (hr : r.Valid) :
    InSimRanges (appleAuthInsert u r now) := by
  obtain ⟨hs, hh, hm, _, hv, hb⟩ := simFields_bounds r hr
  obtain ⟨n, hn1, hn2, hn3⟩ := jsToFixed1_strain_bounds r.rStrain hr.2.2.2.1.1 hr.2.2.2.1.2
  exact ⟨⟨_, rfl, hs.1, hs.2⟩,
    ⟨_, _, hh.1, hh.2, hm.1, hm.2, rfl⟩,
    ⟨n, hn1, hn2, by simp [appleAuthInsert, hn3]⟩,
    ⟨_, rfl, hv.1, hv.2⟩, ⟨_, rfl, hb.1, hb.2⟩⟩

theorem appleSyncInsert_ranges (u : Int) (r : Rand5) (now : Int) (hr : r.Valid) :
    InSimRangesIntStrain (appleSyncInsert u r now) := by
  obtain ⟨hs, hh, hm, ht, hv, hb⟩ := simFields_bounds r hr
  exact ⟨⟨_, rfl, hs.1, hs.2⟩,
    ⟨_, _, hh.1, hh.2, hm.1, hm.2, rfl⟩,
    ⟨_, ht.1, ht.2, rfl⟩,
    ⟨_, rfl, hv.1, hv.2⟩, ⟨_, rfl, hb.1, hb.2⟩⟩

theorem syncAppleBlock_none (st : Store) (u : Int) (env : SyncEnv)
    (h : getWearableToken st u "apple_health" = none) :
    syncAppleBlock st u env = (st, []) := by
  unfold syncAppleBlock
  rw [h]

theorem appleConnected_whoopBlock (st : Store) (u : Int) (env : SyncEnv) :
    appleConnected (syncWhoopBlock st u env).1 u = appleConnected st u := by
  unfold appleConnected
  rw [syncWhoopBlock_apple_token]

/-- In the demo-fallback path (credential present, fetch failed, and not the
rejected-refresh path), the WHOOP arm records the demo record and a success
outcome. -/
theorem syncWhoopBlock_demo (st : Store) (u : Int) (env : SyncEnv) (tok : WearableToken)
    (hGet : getWearableToken st u "whoop" = some tok)
    (hFetch : env.fetch = .failed)
    (hRef : isStale tok env.now = true → env.refresh ≠ .rejected) :
    (syncWhoopBlock st u env).2 = [{ provider := "whoop", status := "success" }] ∧
    (syncWhoopBlock st u env).1.records
      = st.records ++ [demoWhoopInsert u env.whoopRand env.now] := by
  unfold syncWhoopBlock whoopFetchPhase
  rw [hGet]
  by_cases hst : isStale tok env.now
  · cases hrefresh : env.refresh with
    | rejected => exact absurd hrefresh (hRef hst)
    | ok a r ei =>
      rw [hFetch]
      simp [hst, records_update, dbCreateWearableData]
  · rw [hFetch]
    simp [hst, records_update, dbCreateWearableData]

/-! ## Claims -/

/-- C3 (counterexample): the claim "strain level 5.0–19.9 with one decimal
... for both the tracker (whoop) and aggregator (apple_health) simulated
data paths" fails concretely: the WHOOP demo path with strain draw `0.999`
stores `"20.0"`, which is outside 5.0–19.9; and the apple_health sync path
with strain draw `0.5` stores the integer string `"12"`, which is not a
one-decimal string at all. -/
theorem c3_counterexample :
    ((demoWhoopInsert 1 ⟨0, 0, 0, 999/1000, 0, 0⟩ 0).strainLevel = some "20.0" ∧
      ¬ OneDecimalInRange 50 199 "20.0") ∧
    ((appleSyncInsert 1 ⟨0, 0, 0, 1/2, 0, 0⟩ 0).strainLevel = some "12" ∧
      ¬ OneDecimalInRange 50 199 "12") := by
  refine ⟨⟨?_, by decide⟩, ?_, by decide⟩
  · show some (jsToFixed1 ((999/1000 : ℚ) * 15 + 5)) = some "20.0"
    have h : Rat.floor (((999/1000 : ℚ) * 15 + 5) * 10 + 1/2) = 200 := by
      rw [ratFloor_eq, Int.floor_eq_iff]
      constructor <;> norm_num
    unfold jsToFixed1
    rw [h]
    rfl
  · show some (toString (Rat.floor ((1/2 : ℚ) * 15) + 5)) = some "12"
    have h : Rat.floor ((1/2 : ℚ) * 15) = 7 := by
      rw [ratFloor_eq, Int.floor_eq_iff]
      constructor <;> norm_num
    rw [h]
    decide

/-- C3 (amended): every simulated record has sleep score 60–99, sleep
duration 7–8 hours plus 0–59 minutes, HRV 25–74 and heart rate 60–99; the
strain of the WHOOP demo paths and of the apple_health mock-auth path is a
one-decimal string in 5.0–20.0 (the `toFixed(1)` rounding of a draw in
[5,20), which reaches `"20.0"`), while the strain of the apple_health sync
path is an integer 5–19 stored without a decimal point. -/
theorem c3_simulated_ranges (u : Int) (r : Rand5) (now : Int) (hr : r.Valid) :
    InSimRanges (demoWhoopInsert u r now) ∧
    InSimRanges (appleAuthInsert u r now) ∧
    InSimRangesIntStrain (appleSyncInsert u r now) :=
  ⟨demoWhoopInsert_ranges u r now hr, appleAuthInsert_ranges u r now hr,
    appleSyncInsert_ranges u r now hr⟩

/-- C3 (witness): the amended claim at the all-zero draw vector. -/
theorem c3_witness :
    Rand5.Valid r0 ∧
    (InSimRanges (demoWhoopInsert 1 r0 0) ∧
      InSimRanges (appleAuthInsert 1 r0 0) ∧
      InSimRangesIntStrain (appleSyncInsert 1 r0 0)) :=
  ⟨by decide, c3_simulated_ranges 1 r0 0 (by decide)⟩

/-- C2 (counterexample): with the fetch failing and strain draw `0.999`, the
sync endpoint still pushes a success outcome, but the persisted simulated
record's strain is `"20.0"` — outside the documented 5.0–19.9 range — so
"fields drawn from the documented bounded ranges" fails as stated. -/
theorem c2_counterexample :
    ({ provider := "whoop", status := "success" } : Outcome)
        ∈ (syncEndpoint c2State 1 c2Env).2 ∧
    (syncEndpoint c2State 1 c2Env).1.records.map (·.strainLevel)
        = [some "20.0"] ∧
    ¬ OneDecimalInRange 50 199 "20.0" := by
  have hfix : jsToFixed1 ((999/1000 : ℚ) * 15 + 5) = "20.0" := by
    have h : Rat.floor (((999/1000 : ℚ) * 15 + 5) * 10 + 1/2) = 200 := by
      rw [ratFloor_eq, Int.floor_eq_iff]
      constructor <;> norm_num
    unfold jsToFixed1
    rw [h]
    rfl
  have hdemo := syncWhoopBlock_demo c2State 1 c2Env c2Token (by decide) rfl (by decide)
  have happle : getWearableToken (syncWhoopBlock c2State 1 c2Env).1 1 "apple_health" = none := by
    rw [syncWhoopBlock_apple_token]
    decide
  have hsync : syncEndpoint c2State 1 c2Env
      = ((syncWhoopBlock c2State 1 c2Env).1, (syncWhoopBlock c2State 1 c2Env).2) := by
    show ((syncAppleBlock (syncWhoopBlock c2State 1 c2Env).1 1 c2Env).1,
      (syncWhoopBlock c2State 1 c2Env).2
        ++ (syncAppleBlock (syncWhoopBlock c2State 1 c2Env).1 1 c2Env).2) = _
    rw [syncAppleBlock_none _ _ _ happle]
    simp
  rw [hsync]
  refine ⟨?_, ?_, by decide⟩
  · rw [hdemo.1]
    exact List.mem_singleton.mpr rfl
  · rw [hdemo.2]
    show [(demoWhoopInsert 1 c2Env.whoopRand c2Env.now).strainLevel] = _
    show [some (jsToFixed1 ((999/1000 : ℚ) * 15 + 5))] = _
    rw [hfix]

/-- C2 (amended): for a connected WHOOP credential whose metrics fetch
fails (and whose refresh, when one happens, is not rejected), the sync
endpoint persists a simulated record and records a success outcome; the
record's fields are within the documented ranges except that its strain is
the one-decimal `toFixed(1)` rounding of a draw in [5,20), i.e. lies in
5.0–20.0. -/
theorem c2_fetch_failure_fallback (st : Store) (u : Int) (env : SyncEnv)
    (tok : WearableToken)
    (hGet : getWearableToken st u "whoop" = some tok)
    (hFetch : env.fetch = .failed)
    (hRef : isStale tok env.now = true → env.refresh ≠ .rejected)
    (hr : env.whoopRand.Valid) :
    ({ provider := "whoop", status := "success" } : Outcome)
        ∈ (syncEndpoint st u env).2 ∧
    ∃ tail, (syncEndpoint st u env).1.records
        = st.records ++ demoWhoopInsert u env.whoopRand env.now :: tail ∧
      InSimRanges (demoWhoopInsert u env.whoopRand env.now) := by
  obtain ⟨hw2, hw1⟩ := syncWhoopBlock_demo st u env tok hGet hFetch hRef
  constructor
  · show _ ∈ (syncWhoopBlock st u env).2 ++ (syncAppleBlock (syncWhoopBlock st u env).1 u env).2
    rw [hw2]
    exact List.mem_append_left _ (List.mem_singleton.mpr rfl)
  · rcases syncAppleBlock_records (syncWhoopBlock st u env).1 u env with hrec | hrec
    · refine ⟨[], ?_, demoWhoopInsert_ranges u env.whoopRand env.now hr⟩
      show (syncAppleBlock (syncWhoopBlock st u env).1 u env).1.records = _
      rw [hrec, hw1]
    · refine ⟨[appleSyncInsert u env.appleRand env.now], ?_,
        demoWhoopInsert_ranges u env.whoopRand env.now hr⟩
      show (syncAppleBlock (syncWhoopBlock st u env).1 u env).1.records = _
      rw [hrec, hw1]
      simp

/-- C2 (witness): the amended claim at a concrete store with one
non-expiring WHOOP credential and a failing fetch. -/
theorem c2_witness :
    getWearableToken c2State 1 "whoop" = some c2Token ∧
    c1Env.fetch = .failed ∧
    Rand5.Valid c1Env.whoopRand ∧
    (({ provider := "whoop", status := "success" } : Outcome)
        ∈ (syncEndpoint c2State 1 c1Env).2 ∧
      ∃ tail, (syncEndpoint c2State 1 c1Env).1.records
          = c2State.records ++ demoWhoopInsert 1 c1Env.whoopRand c1Env.now :: tail ∧
        InSimRanges (demoWhoopInsert 1 c1Env.whoopRand c1Env.now)) :=
  ⟨by decide, rfl, by decide,
    c2_fetch_failure_fallback c2State 1 c1Env c2Token (by decide) rfl (by decide) (by decide)⟩

/-- C1 (counterexample): an apple_health Credential created through the
callback endpoint with an empty `user_id` exists for user 5, yet a sync
for user 5 returns an empty outcome list — no Sync Outcome is produced for
that connected provider, because the sync arm requires a truthy
`externalUserId` in addition to the Credential's existence. -/
theorem c1_counterexample :
    (getWearableToken c1State 5 "apple_health").isSome = true ∧
    (syncEndpoint c1State 5 c1Env).2 = [] := by decide

/-- C1 (amended): each sync returns exactly one outcome per attempted
provider, with failures isolated per provider (the count for one provider
does not depend on the other's environment); WHOOP is attempted exactly
when a Credential exists, but apple_health is attempted exactly when a
Credential with a truthy (non-null, non-empty) `externalUserId` exists. -/
theorem c1_per_provider_outcomes (st : Store) (u : Int) (env : SyncEnv) :
    ((syncEndpoint st u env).2.filter (fun o => o.provider == "whoop")).length
      = (if (getWearableToken st u "whoop").isSome then 1 else 0) ∧
    ((syncEndpoint st u env).2.filter (fun o => o.provider == "apple_health")).length
      = (if appleConnected st u then 1 else 0) := by
  have happle := appleConnected_whoopBlock st u env
  show (((syncWhoopBlock st u env).2 ++ (syncAppleBlock (syncWhoopBlock st u env).1 u env).2).filter
      (fun o => o.provider == "whoop")).length = _ ∧
    (((syncWhoopBlock st u env).2 ++ (syncAppleBlock (syncWhoopBlock st u env).1 u env).2).filter
      (fun o => o.provider == "apple_health")).length = _
  rcases syncWhoopBlock_outcomes st u env with ⟨hg, hw⟩ | ⟨hg, s, hw⟩ <;>
    rcases syncAppleBlock_outcomes (syncWhoopBlock st u env).1 u env with ⟨ha, hA⟩ | ⟨ha, hA⟩ <;>
      rw [happle] at ha <;>
        simp [hw, hA, hg, ha, List.filter]

/-- C4: a stale WHOOP credential with a refresh token, refreshed
successfully during sync, ends the sync with `expiresAt` strictly later
than before (`now + expires_in * 1000 > old expiry`), the new access and
refresh tokens, and an unchanged `externalUserId`. -/
theorem c4_refresh_updates (st : Store) (u : Int) (env : SyncEnv)
    (tok : WearableToken) (e : Int) (a r : String) (ei : ℕ)
    (hGet : getWearableToken st u "whoop" = some tok)
    (hExp : tok.expiresAt = some e)
    (hStale : e < env.now)
    (hRt : tok.refreshToken.isSome)
    (hRef : env.refresh = .ok a r ei) :
    ∃ tok2, getWearableToken (syncEndpoint st u env).1 u "whoop" = some tok2 ∧
      tok2.expiresAt = some (env.now + (ei : Int) * 1000) ∧
      e < env.now + (ei : Int) * 1000 ∧
      tok2.accessToken = a ∧
      tok2.refreshToken = some r ∧
      tok2.externalUserId = tok.externalUserId := by
  have hlt : e < env.now + (ei : Int) * 1000 := by
    have : (0 : Int) ≤ (ei : Int) * 1000 := by positivity
    omega
  have hst : isStale tok env.now = true := by
    unfold isStale
    rw [hExp]
    simpa using hStale
  have hwt : getWearableToken (syncEndpoint st u env).1 u "whoop"
      = getWearableToken (syncWhoopBlock st u env).1 u "whoop" := by
    show getWearableToken (syncAppleBlock (syncWhoopBlock st u env).1 u env).1 u "whoop" = _
    unfold getWearableToken
    rw [syncAppleBlock_tokens]
  rw [hwt]
  have hne : ¬(u = u ∧ "whoop" = "whoop") → False := fun h => h ⟨rfl, rfl⟩
  unfold syncWhoopBlock whoopFetchPhase
  rw [hGet]
  simp only [hst, if_true, hRef]
  cases hf : env.fetch with
  | ok raw =>
    rw [getWearableToken_dbCreate,
      getWearableToken_update_same st u "whoop"
        (fun t => { t with
          accessToken := a
          refreshToken := some r
          expiresAt := some (env.now + (ei : Int) * 1000) }) env.now
        (fun t => ⟨rfl, rfl⟩),
      hGet]
    exact ⟨_, rfl, rfl, hlt, rfl, rfl, rfl⟩
  | failed =>
    rw [getWearableToken_update_same _ u "whoop" (fun t => t) env.now (fun t => ⟨rfl, rfl⟩),
      getWearableToken_dbCreate,
      getWearableToken_update_same st u "whoop"
        (fun t => { t with
          accessToken := a
          refreshToken := some r
          expiresAt := some (env.now + (ei : Int) * 1000) }) env.now
        (fun t => ⟨rfl, rfl⟩),
      hGet]
    exact ⟨_, rfl, rfl, hlt, rfl, rfl, rfl⟩

/-- C4 (witness): the theorem at the concrete stale credential `c4Token`
refreshed at time 100. -/
theorem c4_witness :
    (getWearableToken c4State 1 "whoop" = some c4Token ∧
      c4Token.expiresAt = some 10 ∧ (10 : Int) < c4Env.now ∧
      c4Token.refreshToken.isSome ∧
      c4Env.refresh = .ok "new_access" "new_refresh" 3600) ∧
    (∃ tok2, getWearableToken (syncEndpoint c4State 1 c4Env).1 1 "whoop" = some tok2 ∧
      tok2.expiresAt = some (c4Env.now + (3600 : Int) * 1000) ∧
      (10 : Int) < c4Env.now + (3600 : Int) * 1000 ∧
      tok2.accessToken = "new_access" ∧
      tok2.refreshToken = some "new_refresh" ∧
      tok2.externalUserId = c4Token.externalUserId) :=
  ⟨⟨by decide, rfl, by decide, by decide, rfl⟩,
    c4_refresh_updates c4State 1 c4Env c4Token 10 "new_access" "new_refresh" 3600
      (by decide) rfl (by decide) (by decide) rfl⟩

/-- C5: when the provider rejects the refresh during sync, the WHOOP arm
produces exactly one error outcome, stores nothing for WHOOP (no simulated
fallback, no credential change — in particular the refresh is not
retried), and the connected apple_health arm still produces its success
outcome with its mock record persisted. -/
theorem c5_refresh_rejected_isolated (st : Store) (u : Int) (env : SyncEnv)
    (tok : WearableToken) (e : Int) (atok : WearableToken) (s : String)
    (hGet : getWearableToken st u "whoop" = some tok)
    (hExp : tok.expiresAt = some e)
    (hStale : e < env.now)
    (hRef : env.refresh = .rejected)
    (hApple : getWearableToken st u "apple_health" = some atok)
    (hExt : atok.externalUserId = some s)
    (hs : s ≠ "") :
    (syncEndpoint st u env).2
        = [{ provider := "whoop", status := "error" },
           { provider := "apple_health", status := "success" }] ∧
    (syncEndpoint st u env).1.tokens = st.tokens ∧
    (syncEndpoint st u env).1.records
        = st.records ++ [appleSyncInsert u env.appleRand env.now] := by
  have hst : isStale tok env.now = true := by
    unfold isStale
    rw [hExp]
    simpa using hStale
  have hw : syncWhoopBlock st u env = (st, [{ provider := "whoop", status := "error" }]) := by
    unfold syncWhoopBlock
    rw [hGet]
    simp only [hst, if_true, hRef]
  have hA : syncAppleBlock st u env
      = (dbCreateWearableData st (appleSyncInsert u env.appleRand env.now),
        [{ provider := "apple_health", status := "success" }]) := by
    unfold syncAppleBlock
    simp only [hApple, hExt]
    rw [if_neg hs]
  unfold syncEndpoint
  simp only [hw, hA]
  exact ⟨rfl, rfl, rfl⟩

/-- C5 (witness): the theorem at a concrete two-provider store whose WHOOP
refresh is rejected. -/
theorem c5_witness :
    (getWearableToken c5State 1 "whoop" = some c4Token ∧
      c4Token.expiresAt = some 10 ∧ (10 : Int) < c5Env.now ∧
      c5Env.refresh = .rejected ∧
      getWearableToken c5State 1 "apple_health" = some c5AppleToken ∧
      c5AppleToken.externalUserId = some "mock_apple_1_0" ∧
      "mock_apple_1_0" ≠ "") ∧
    ((syncEndpoint c5State 1 c5Env).2
        = [{ provider := "whoop", status := "error" },
           { provider := "apple_health", status := "success" }] ∧
      (syncEndpoint c5State 1 c5Env).1.tokens = c5State.tokens ∧
      (syncEndpoint c5State 1 c5Env).1.records
        = c5State.records ++ [appleSyncInsert 1 c5Env.appleRand c5Env.now]) :=
  ⟨⟨by decide, rfl, by decide, rfl, by decide, rfl, by decide⟩,
    c5_refresh_rejected_isolated c5State 1 c5Env c4Token 10 c5AppleToken "mock_apple_1_0"
      (by decide) rfl (by decide) rfl (by decide) rfl (by decide)⟩

/-- C6: the spec's resolution rule would find `c6Token` by its
`externalUserId = "terra_abc"`, but the webhook handler — which passes the
external id to the integer-keyed `userId` lookup — finds nothing for the
same event, acknowledges with 200, and persists no record. -/
theorem c6_webhook_lookup_bug :
    resolveByExternalUserId c6State "terra_abc" = some c6Token ∧
    terraLookupToken c6State "terra_abc" = none ∧
    (terraWebhook c6State c6Event 0).1.records = [] ∧
    (terraWebhook c6State c6Event 0).2 = 200 := by decide

/-- C7 (counterexample): a sleep-category webhook request whose body carries
no `user` object makes the handler throw on `user.user_id`, and its catch
answers HTTP 500 — a processing failure propagated to the sender, not an
acknowledgement. -/
theorem c7_counterexample :
    (terraWebhook { tokens := [], records := [] } c7Event 0).2 = 500 := by decide

/-- C7 (amended): the webhook endpoint acknowledges every request with 200 —
including unhandled event types and events whose external user id matches
no credential — except that an exception raised while processing a
handled-type event (in this model: the body has no `user` object) is
answered with a 500 error instead. -/
theorem c7_webhook_status (st : Store) (b : TerraBody) (now : Int) :
    (terraWebhook st b now).2 = 200 ∨
    ((b.type = "body" ∨ b.type = "daily" ∨ b.type = "sleep") ∧ b.user = none ∧
      (terraWebhook st b now).2 = 500) := by
  unfold terraWebhook
  split
  · rename_i htype
    split
    · rename_i huser
      exact Or.inr ⟨htype, huser, rfl⟩
    · split
      · exact Or.inl rfl
      · exact Or.inl rfl
  · exact Or.inl rfl

/-- C8 (counterexample): a successful real-API sync with a provider payload
carrying `sleepScore = 150` and `hrv = -5` persists those values verbatim:
the stored record has `hrv = -5` (not a positive integer, not null) and
`sleepScore = 150` (outside 0–100, not null). -/
theorem c8_counterexample :
    (syncEndpoint c8State 1 c8Env).1.records.map (fun rec => (rec.hrv, rec.sleepScore))
        = [(some (-5), some 150)] ∧
    ¬ (0 < (-5 : Int)) ∧ ¬ ((150 : Int) ≤ 100) := by decide

/-- C8 (amended): every record from the simulated/demo paths has its numeric
fields inside the documented §3 ranges; every persistence path coerces a
falsy (`0`) numeric value to null, so 0 is never stored as a stand-in for
an unknown value; but the real-API and webhook paths copy nonzero
provider-reported values verbatim without range validation, so an
out-of-range provider value is stored as-is. -/
theorem c8_field_invariants :
    (∀ u raw now, (realWhoopInsert u raw now).sleepScore ≠ some 0 ∧
      (realWhoopInsert u raw now).hrv ≠ some 0 ∧
      (realWhoopInsert u raw now).heartRate ≠ some 0) ∧
    (∀ u td now, (terraInsert u td now).sleepScore ≠ some 0 ∧
      (terraInsert u td now).hrv ≠ some 0 ∧
      (terraInsert u td now).heartRate ≠ some 0) ∧
    (∀ st d now, (memCreateWearableData st d now).2.sleepScore ≠ some 0 ∧
      (memCreateWearableData st d now).2.hrv ≠ some 0 ∧
      (memCreateWearableData st d now).2.heartRate ≠ some 0) ∧
    (∀ u r now, Rand5.Valid r →
      InDocRanges (demoWhoopInsert u r now) ∧
      InDocRanges (appleAuthInsert u r now) ∧
      InDocRanges (appleSyncInsert u r now)) := by
  refine ⟨fun u raw now => ⟨?_, ?_, ?_⟩, fun u td now => ⟨?_, ?_, ?_⟩,
    fun st d now => ⟨?_, ?_, ?_⟩, fun u r now hr => ?_⟩
  · exact orNullInt_ne_zero _
  · exact orNullInt_ne_zero _
  · exact orNullInt_ne_zero _
  · exact orNullInt_ne_zero _
  · exact orNullInt_ne_zero _
  · exact orNullInt_ne_zero _
  · exact orNullInt_ne_zero _
  · exact orNullInt_ne_zero _
  · exact orNullInt_ne_zero _
  · obtain ⟨hs, _, _, ht, hv, hb⟩ := simFields_bounds r hr
    refine ⟨⟨?_, ?_, ?_⟩, ⟨?_, ?_, ?_⟩, ⟨?_, ?_, ?_⟩⟩ <;>
      intro v hveq <;>
        injection hveq with hveq <;> omega

/-- C8 (witness): the amended claim's parts at concrete inputs. -/
theorem c8_witness :
    Rand5.Valid r0 ∧
    (realWhoopInsert 1 c8Raw 0).hrv ≠ some 0 ∧
    (InDocRanges (demoWhoopInsert 1 r0 0) ∧
      InDocRanges (appleAuthInsert 1 r0 0) ∧
      InDocRanges (appleSyncInsert 1 r0 0)) :=
  ⟨by decide, (c8_field_invariants.1 1 c8Raw 0).2.1,
    c8_field_invariants.2.2.2 1 r0 0 (by decide)⟩

/-- C9: for a nonzero user id, disconnecting a known provider succeeds and
is idempotent — the second delete of the same pair also reports success and
leaves the state unchanged — while an unknown provider name is rejected
with a 400 client error. -/
theorem c9_disconnect_idempotent (st : Store) (p : String) (u : Int) (hu : u ≠ 0) :
    ((p = "whoop" ∨ p = "apple_health") →
      (disconnectEndpoint st p u).2 = 200 ∧
      (disconnectEndpoint (disconnectEndpoint st p u).1 p u).2 = 200 ∧
      (disconnectEndpoint (disconnectEndpoint st p u).1 p u).1
        = (disconnectEndpoint st p u).1) ∧
    (¬(p = "whoop" ∨ p = "apple_health") → (disconnectEndpoint st p u).2 = 400) := by
  constructor
  · intro hp
    unfold disconnectEndpoint deleteWearableToken
    simp only [if_neg hu, if_neg (not_not_intro hp)]
    refine ⟨trivial, trivial, ?_⟩
    have hff : (st.tokens.filter
          (fun t => !decide (t.userId = u ∧ t.provider = p))).filter
          (fun t => !decide (t.userId = u ∧ t.provider = p))
        = st.tokens.filter (fun t => !decide (t.userId = u ∧ t.provider = p)) := by
      rw [List.filter_filter]
      simp
    rw [hff]
  · intro hp
    unfold disconnectEndpoint
    simp only [if_neg hu, if_pos hp]

/-- C9 (witness): both halves of the theorem at user 1 — a double disconnect
of `whoop` on a store holding that credential, and the rejection of the
unknown provider name `"fitbit"`. -/
theorem c9_witness :
    ((1 : Int) ≠ 0) ∧
    (disconnectEndpoint c2State "whoop" 1).2 = 200 ∧
    (disconnectEndpoint (disconnectEndpoint c2State "whoop" 1).1 "whoop" 1).2 = 200 ∧
    (disconnectEndpoint (disconnectEndpoint c2State "whoop" 1).1 "whoop" 1).1
        = (disconnectEndpoint c2State "whoop" 1).1 ∧
    (disconnectEndpoint c2State "fitbit" 1).2 = 400 :=
  ⟨by decide,
    ((c9_disconnect_idempotent c2State "whoop" 1 (by decide)).1 (Or.inl rfl)).1,
    ((c9_disconnect_idempotent c2State "whoop" 1 (by decide)).1 (Or.inl rfl)).2.1,
    ((c9_disconnect_idempotent c2State "whoop" 1 (by decide)).1 (Or.inl rfl)).2.2,
    (c9_disconnect_idempotent c2State "fitbit" 1 (by decide)).2 (by decide)⟩

/-- C10: an apple_health credential created by either authorization path
(mock auth, or the callback for a parsable success state) has
`refreshToken = null` and `expiresAt = null`, hence is never stale at any
time; and the wearable-status endpoint reports `needsReauth = false` for
apple_health unconditionally. -/
theorem c10_apple_credentials_nonexpiring (st : Store) (u now : Int) (r : Rand5)
    (b : AppleCallbackBody) (u2 : Int)
    (hu : u ≠ 0)
    (hnone : getWearableToken st u "apple_health" = none)
    (hstatus : b.status = "success")
    (hparse : parseAppleState b.state = some u2)
    (hu2 : u2 ≠ 0)
    (hnone2 : getWearableToken st u2 "apple_health" = none) :
    (∃ t, getWearableToken (appleMockAuth st u now r).1 u "apple_health" = some t ∧
      t.refreshToken = none ∧ t.expiresAt = none ∧ ∀ n2, isStale t n2 = false) ∧
    (∃ t, getWearableToken (appleCallback st b now).1 u2 "apple_health" = some t ∧
      t.refreshToken = none ∧ t.expiresAt = none ∧ ∀ n2, isStale t n2 = false) ∧
    (∀ st2 u3 n3, (wearableStatusEndpoint st2 u3 n3).apple_health.needsReauth = false) := by
  refine ⟨?_, ?_, fun st2 u3 n3 => rfl⟩
  · unfold appleMockAuth
    rw [if_neg hu]
    simp only [hnone]
    refine ⟨appleMockToken u now, ?_, rfl, rfl, fun n2 => rfl⟩
    rw [getWearableToken_dbCreate]
    exact getWearableToken_create_hit st (appleMockToken u now) u "apple_health"
      hnone rfl rfl
  · unfold appleCallback
    rw [if_neg (not_not_intro hstatus)]
    simp only [hparse]
    rw [if_neg hu2]
    simp only [hnone2]
    refine ⟨appleCallbackToken u2 b.user_id now, ?_, rfl, rfl, fun n2 => rfl⟩
    exact getWearableToken_create_hit st (appleCallbackToken u2 b.user_id now) u2
      "apple_health" hnone2 rfl rfl

/-- C10 (witness): the theorem at the empty store, mock-auth user 1 and a
callback whose state parses to user 2. -/
theorem c10_witness :
    ((1 : Int) ≠ 0 ∧ getWearableToken emptyStore 1 "apple_health" = none ∧
      c10Body.status = "success" ∧ parseAppleState c10Body.state = some 2) ∧
    (∃ t, getWearableToken (appleMockAuth emptyStore 1 0 r0).1 1 "apple_health" = some t ∧
      t.refreshToken = none ∧ t.expiresAt = none ∧ ∀ n2, isStale t n2 = false) ∧
    (∃ t, getWearableToken (appleCallback emptyStore c10Body 0).1 2 "apple_health" = some t ∧
      t.refreshToken = none ∧ t.expiresAt = none ∧ ∀ n2, isStale t n2 = false) ∧
    (∀ st2 u3 n3, (wearableStatusEndpoint st2 u3 n3).apple_health.needsReauth = false) := by
  have h := c10_apple_credentials_nonexpiring emptyStore 1 0 r0 c10Body 2
    (by decide) (by decide) rfl (by decide) (by decide) (by decide)
  exact ⟨⟨by decide, by decide, rfl, by decide⟩, h.1, h.2.1, h.2.2⟩

end BioDrive
